import Mathlib

/- Verification of the nyx model-queue, dataframe-accessor and deep-copy layer.
The Python classes Analysis (nyx/analysis.py), ModelBase (nyx/modelling/model.py)
and Unsupervised (nyx/modelling/unsupervised_models.py) are embedded shallowly:
a single state record carries the fields of these objects, pandas dataframes are
association lists of named columns, and Python exceptions are an explicit error
type. Python dicts preserve insertion order, so both the queued-models mapping
and the ran-models mapping are modelled as ordered association lists with
unique keys. -/

/-- Python exception classes raised by the embedded code. -/
inductive PyError where
  | valueError (msg : String)
  | attributeError (msg : String)
  | typeError (msg : String)
deriving DecidableEq

/-- Ordered association-list lookup: value of the first entry with the given key
(Python dict access; dict keys are unique). -/
def lookupA {α : Type} (k : String) : List (String × α) → Option α
  | [] => none
  | p :: rest => if p.1 = k then some p.2 else lookupA k rest

/-- Python dict assignment d[k] = v: replace the value at an existing key in
place, otherwise append the new binding at the end (insertion order kept). -/
def insertA {α : Type} (k : String) (v : α) : List (String × α) → List (String × α)
  | [] => [(k, v)]
  | p :: rest => if p.1 = k then (k, v) :: rest else p :: insertA k v rest

/-- Python del d[k] on a dict with unique keys: drop the binding with key k. -/
def removeA {α : Type} (k : String) : List (String × α) → List (String × α)
  | [] => []
  | p :: rest => if p.1 = k then removeA k rest else p :: removeA k rest

/-- A pandas dataframe, reduced to its ordered list of named columns; cell
values are modelled as integers. -/
structure DataFrame where
  cols : List (String × List Int)
deriving DecidableEq

/-- df.columns.tolist(): the ordered list of column names. -/
def DataFrame.columns (df : DataFrame) : List String :=
  df.cols.map Prod.fst

/-- df[c] for a single column name c: the values of column c if present. -/
def DataFrame.getCol (df : DataFrame) (c : String) : Option (List Int) :=
  lookupA c df.cols

/-- df[c] = v: overwrite column c if present, otherwise append it as a new
last column (pandas column assignment; column names are unique). -/
def DataFrame.setCol (df : DataFrame) (c : String) (v : List Int) : DataFrame :=
  ⟨insertA c v df.cols⟩

/-- df[cs] for a list of column names: the sub-dataframe with those columns. -/
def DataFrame.selectCols (df : DataFrame) (cs : List String) : DataFrame :=
  ⟨cs.filterMap (fun c => (df.getCol c).map (fun v => (c, v)))⟩

/-- A trained model analysis object (the result of running one queued model);
it carries the model name it was trained under (ClassificationModelAnalysis
and its siblings store model_name), and the trained-estimator content is
abstracted to an integer payload supplied by the external library. -/
structure ModelResult where
  model_name : String
  payload : Int
deriving DecidableEq

/-- A queued entry of the model queue: the deferred call built in add_to_queue
keeps the model name in its keyword arguments, and the rest of the deferred
training configuration is abstracted to an integer payload. -/
structure QueuedClosure where
  model_name : String
  payload : Int
deriving DecidableEq

/-- Modelled from the spec: a queued entry is "a deferred training closure";
the training itself is delegated to external estimator libraries and the helper
it calls (_run_supervised_model / _run_unsupervised_model, repository code not
under src/), so invoking the closure is modelled as producing a trained model
result that carries the model name the closure was configured with. -/
def runClosure (q : QueuedClosure) : ModelResult :=
  { model_name := q.model_name, payload := q.payload }

/-- util._run: runs one deferred model closure and returns the trained model. -/
def run_one (q : QueuedClosure) : ModelResult :=
  runClosure q

/-- The Python class of the object, used where the source dispatches on
type(self) or on type(self).__name__. -/
inductive ClassTag where
  | analysis
  | modelBase
  | classification
  | unsupervised
deriving DecidableEq

/-- The state of an Analysis / ModelBase / Unsupervised object: its dataframes,
target bookkeeping, and (for ModelBase and subclasses) the ran-models mapping
self._models and the queued-models mapping self._queued_models. -/
structure ModelState where
  cls : ClassTag
  x_train : DataFrame
  x_test : Option DataFrame
  target : String
  target_mapping : Option (List (Int × String))
  test_split_percentage : ℚ
  exp_name : String
  models : List (String × ModelResult)
  queued_models : List (String × QueuedClosure)
deriving DecidableEq

/-- Modelled from the spec: split_data (nyx.util, repository code not under
src/) performs the train/test split the spec delegates to the external library;
it is modelled as cutting the rows of every column at the train/test boundary
given by the split percentage. The target and problem arguments of the source
are accepted and ignored. -/
def split_data (df : DataFrame) (tsp : ℚ) (tgt : String) (problem : String) : DataFrame × DataFrame :=
  let n : Nat := (df.cols.head?.map (fun p => p.2.length)).getD 0
  let ntest : Nat := (tsp * n).floor.toNat
  let _ := tgt
  let _ := problem
  (⟨df.cols.map (fun p => (p.1, p.2.take (n - ntest)))⟩,
   ⟨df.cols.map (fun p => (p.1, p.2.drop (n - ntest)))⟩)

/-- ModelBase.__init__: problem = "c" if the class is Classification else "r". -/
def problemOf (cls : ClassTag) : String :=
  if cls = ClassTag.classification then "c" else "r"

/-- ModelBase.__init__: stores the fields, then splits the training data into a
train and a test set exactly when no test set was given and the class is not
Unsupervised. -/
def ModelBase.init (cls : ClassTag) (x_train : DataFrame) (target : String)
    (x_test : Option DataFrame) (test_split_percentage : ℚ) (exp_name : String) :
    ModelState :=
  let base : ModelState :=
    { cls := cls, x_train := x_train, x_test := x_test, target := target,
      target_mapping := none, test_split_percentage := test_split_percentage,
      exp_name := exp_name, models := [], queued_models := [] }
  if x_test = none ∧ cls ≠ ClassTag.unsupervised then
    let split := split_data x_train test_split_percentage target (problemOf cls)
    { base with x_train := split.1, x_test := some split.2 }
  else base

/-- Unsupervised.__init__: forwards to ModelBase.__init__ with an empty target,
no test set and the default split percentage of 0.2. -/
def Unsupervised.init (x_train : DataFrame) (exp_name : String) : ModelState :=
  ModelBase.init ClassTag.unsupervised x_train "" none (1 / 5) exp_name

/-- Analysis.__init__: stores the two dataframes and the target and clears the
target mapping. The split-percentage, experiment-name and model-map fields do
not exist on Analysis objects and are given inert defaults. -/
def Analysis.init (x_train : DataFrame) (x_test : Option DataFrame) (target : String) :
    ModelState :=
  { cls := ClassTag.analysis, x_train := x_train, x_test := x_test, target := target,
    target_mapping := none, test_split_percentage := 1 / 5, exp_name := "",
    models := [], queued_models := [] }

/-- The features property (identical in Analysis and ModelBase): copies the
column-name list of x_train and, when the target is non-empty, removes the
first occurrence of the target from that copy; list.remove raises ValueError
when the target is missing from the list. -/
def features (m : ModelState) : Except PyError (List String) :=
  let cols := m.x_train.columns
  if m.target = "" then Except.ok cols
  else if m.target ∈ cols then Except.ok (cols.erase m.target)
  else Except.error (PyError.valueError "list.remove(x): x not in list")

/-- Analysis.y_train getter: x_train[target] when the target is set, else None. -/
def y_train (m : ModelState) : Option (List Int) :=
  if m.target = "" then none else m.x_train.getCol m.target

/-- Analysis.y_train setter: writes into the target column when the target is
set; otherwise names the target "label" and writes a column of that name. -/
def set_y_train (m : ModelState) (v : List Int) : ModelState :=
  if m.target = "" then
    { m with target := "label", x_train := m.x_train.setCol "label" v }
  else
    { m with x_train := m.x_train.setCol m.target v }

/-- y_test getter (identical in Analysis and ModelBase): x_test[target] when a
test set exists and the target is set, else None. -/
def y_test (m : ModelState) : Option (List Int) :=
  match m.x_test with
  | none => none
  | some df => if m.target = "" then none else df.getCol m.target

/-- y_test setter (identical in Analysis and ModelBase): does nothing without a
test set; otherwise writes into the target column when the target is set, and
otherwise names the target "label" and writes a column of that name. -/
def set_y_test (m : ModelState) (v : List Int) : ModelState :=
  match m.x_test with
  | none => m
  | some df =>
    if m.target = "" then
      { m with target := "label", x_test := some (df.setCol "label" v) }
    else
      { m with x_test := some (df.setCol m.target v) }

/-- ModelBase.test_data: x_test restricted to the feature columns when a test
set exists, else None; the feature list is only computed in the first case. -/
def test_data (m : ModelState) : Except PyError (Option DataFrame) :=
  match m.x_test with
  | none => Except.ok none
  | some df => (features m).map (fun fs => some (df.selectCols fs))

/-- The Python substring test sub in s. -/
def strContains (s sub : String) : Bool :=
  (List.range (s.data.length + 1)).any (fun i => sub.data.isPrefixOf (s.data.drop i))

/-- Modelled from the spec: calling a model-training method with run=True
trains the estimator through the external library, and the helper it calls
(_run_supervised_model / _run_unsupervised_model, repository code not under
src/) registers the trained result in the ran-models mapping under its model
name before returning it. -/
def train_now (m : ModelState) (model_name : String) (payload : Int) :
    ModelResult × ModelState :=
  let r : ModelResult := { model_name := model_name, payload := payload }
  (r, { m with models := insertA model_name r m.models })

/-- The add_to_queue decorator wrapper around a model-training method named
fname. It first validates the model name through _validate_model_name
(repository code not under src/, passed here as a predicate) and raises
AttributeError on failure; with run=True it trains at once; with run=False it
returns None, either after only printing a warning when the method name
contains "XGBoost", or after storing the deferred training closure in the
queued-models mapping under the given model name. -/
def add_to_queue (validate : ModelState → String → Bool) (m : ModelState)
    (fname : String) (model_name : String) (run : Bool) (payload : Int) :
    Except PyError (Option ModelResult) × ModelState :=
  if !(validate m model_name) then
    (Except.error (PyError.attributeError "Invalid model name. Please choose another one."), m)
  else if run then
    let tr := train_now m model_name payload
    (Except.ok (some tr.1), tr.2)
  else if strContains fname "XGBoost" then
    (Except.ok none, m)
  else
    (Except.ok none,
      { m with queued_models :=
          insertA model_name { model_name := model_name, payload := payload } m.queued_models })

/-- The loop body of _run_models_parallel: register one pool result in the
ran-models mapping and delete its entry from the queued-models mapping. -/
def pstep (st : ModelState) (r : ModelResult) : ModelState :=
  { st with models := insertA r.model_name r st.models,
            queued_models := removeA r.model_name st.queued_models }

/-- util._run_models_parallel: maps util._run over the list of queued closures
with a process pool (so in queue order), then registers every result and drains
the queue in the parent. -/
def run_models_parallel (m : ModelState) : List ModelResult × ModelState :=
  let results := (m.queued_models.map Prod.snd).map run_one
  (results, results.foldl pstep m)

/-- Modelled from the spec: invoking the closure stored under a queue key
trains the model, records the result in the ran-models mapping and removes the
queue entry - the spec states the queue is "drained by either sequential
execution or a process pool"; the helper the closure calls is repository code
not under src/. -/
def invoke_queued (st : ModelState) (k : String) (q : QueuedClosure) :
    ModelResult × ModelState :=
  (runClosure q,
   { st with models := insertA (runClosure q).model_name (runClosure q) st.models,
             queued_models := removeA k st.queued_models })

/-- The pure-state part of one sequential run step. -/
def series_state_step (st : ModelState) (kq : String × QueuedClosure) : ModelState :=
  (invoke_queued st kq.1 kq.2).2

/-- The loop body of the series branch of run_models: call the queued closure
and append its result to the result list. -/
def sstep (acc : List ModelResult × ModelState) (kq : String × QueuedClosure) :
    List ModelResult × ModelState :=
  ((acc.1 ++ [(invoke_queued acc.2 kq.1 kq.2).1]), (invoke_queued acc.2 kq.1 kq.2).2)

/-- The series branch of ModelBase.run_models: invoke every queued closure one
after the other, collecting the results in queue order. -/
def run_models_series (m : ModelState) : List ModelResult × ModelState :=
  m.queued_models.foldl sstep ([], m)

/-- ModelBase.run_models: runs all queued models, either in parallel or in
series, and raises ValueError on any other method string. -/
def run_models (m : ModelState) (method : String) :
    Except PyError (List ModelResult) × ModelState :=
  if method = "parallel" then
    (Except.ok (run_models_parallel m).1, (run_models_parallel m).2)
  else if method = "series" then
    (Except.ok (run_models_series m).1, (run_models_series m).2)
  else
    (Except.error (PyError.valueError
      "Invalid run method, accepted run methods are either \"parallel\" or \"series\"."), m)

/-- ModelBase.delete_model: removes the named model from the queued-models
mapping when present there, otherwise from the ran-models mapping when present
there, and otherwise raises ValueError. -/
def delete_model (m : ModelState) (name : String) : Except PyError Unit × ModelState :=
  if (lookupA name m.queued_models).isSome then
    (Except.ok (), { m with queued_models := removeA name m.queued_models })
  else if (lookupA name m.models).isSome then
    (Except.ok (), { m with models := removeA name m.models })
  else
    (Except.error (PyError.valueError s!"Model {name} does not exist"), m)

/-- The keyword parameters accepted by each __init__ in the class hierarchy.
Analysis, ModelBase and Unsupervised are read off their definitions in src/;
the Classification entry is modelled from the spec (its class body is
repository code not under src/) as forwarding the full ModelBase signature. -/
def ctorParams : ClassTag → List String
  | ClassTag.analysis => ["x_train", "x_test", "target"]
  | ClassTag.modelBase => ["x_train", "target", "x_test", "test_split_percentage", "exp_name"]
  | ClassTag.classification => ["x_train", "target", "x_test", "test_split_percentage", "exp_name"]
  | ClassTag.unsupervised => ["x_train", "exp_name"]

/-- ModelBase.__deepcopy__: copies the dataframes, then calls type(self) with
the five keyword arguments x_train, target, x_test, test_split_percentage and
exp_name - a TypeError when the dynamic class does not accept one of them -
and finally shares target_mapping, the ran-models mapping and the queued-models
mapping with the new instance. -/
def ModelBase.deepcopy (m : ModelState) : Except PyError ModelState :=
  let kwargs := ["x_train", "target", "x_test", "test_split_percentage", "exp_name"]
  match kwargs.find? (fun k => !((ctorParams m.cls).contains k)) with
  | some k =>
    Except.error (PyError.typeError
      (String.append "__init__ got an unexpected keyword argument " k))
  | none =>
    let fresh := ModelBase.init m.cls m.x_train m.target m.x_test
      m.test_split_percentage m.exp_name
    Except.ok { fresh with target_mapping := m.target_mapping,
                           models := m.models, queued_models := m.queued_models }

/-- Analysis.__deepcopy__: copies the dataframes, calls type(self) with the
keyword arguments x_train, x_test and target, and shares target_mapping with
the new instance. -/
def Analysis.deepcopy (m : ModelState) : Except PyError ModelState :=
  let kwargs := ["x_train", "x_test", "target"]
  match kwargs.find? (fun k => !((ctorParams m.cls).contains k)) with
  | some k =>
    Except.error (PyError.typeError
      (String.append "__init__ got an unexpected keyword argument " k))
  | none =>
    let fresh := Analysis.init m.x_train m.x_test m.target
    Except.ok { fresh with target_mapping := m.target_mapping }

/-- The copy() method of both Analysis and ModelBase: copy.deepcopy(self),
which dispatches to the first __deepcopy__ in the method resolution order -
Analysis.__deepcopy__ for Analysis objects and ModelBase.__deepcopy__ for
ModelBase, Classification and Unsupervised objects. -/
def ModelState.copy (m : ModelState) : Except PyError ModelState :=
  match m.cls with
  | ClassTag.analysis => Analysis.deepcopy m
  | _ => ModelBase.deepcopy m

/-- Tests whether a computation raised a ValueError. -/
def isValueError {α : Type} : Except PyError α → Bool
  | Except.error (PyError.valueError _) => true
  | _ => false

/-- A sample fitted-model validation predicate that rejects every name. -/
def always_invalid : ModelState → String → Bool := fun _ _ => false

/-- A sample validation predicate that accepts every name. -/
def always_valid : ModelState → String → Bool := fun _ _ => true

/-- A sample state with an empty queue and no test set. -/
def st0 : ModelState :=
  { cls := ClassTag.unsupervised, x_train := ⟨[("a", [1, 2, 3])]⟩, x_test := none,
    target := "", target_mapping := none, test_split_percentage := 1 / 5,
    exp_name := "my-experiment", models := [], queued_models := [] }

/-- A sample state with two queued models. -/
def stQ : ModelState :=
  { st0 with queued_models :=
      [("km", { model_name := "km", payload := 1 }),
       ("dbs", { model_name := "dbs", payload := 2 })] }

/-- A sample state with one queued and one ran model. -/
def stD : ModelState :=
  { st0 with queued_models := [("qa", { model_name := "qa", payload := 1 })],
             models := [("rb", { model_name := "rb", payload := 2 })] }

/-- A sample supervised state whose target names an existing column. -/
def stT : ModelState :=
  { cls := ClassTag.modelBase, x_train := ⟨[("a", [1, 2]), ("t", [0, 1]), ("b", [3, 4])]⟩,
    x_test := some ⟨[("a", [5]), ("t", [1]), ("b", [6])]⟩, target := "t",
    target_mapping := none, test_split_percentage := 1 / 5,
    exp_name := "my-experiment", models := [], queued_models := [] }

/-- A sample state with an empty target and a test set, without a label column. -/
def stL : ModelState :=
  { cls := ClassTag.analysis, x_train := ⟨[("f1", [1, 2])]⟩,
    x_test := some ⟨[("f1", [3])]⟩, target := "", target_mapping := none,
    test_split_percentage := 1 / 5, exp_name := "", models := [], queued_models := [] }

/- ------------------------------------------------------------------ -/
/- Helper lemmas about the ordered association-list operations.       -/
/- ------------------------------------------------------------------ -/

theorem lookupA_insertA_self {α : Type} (k : String) (v : α) (l : List (String × α)) :
    lookupA k (insertA k v l) = some v := by
  induction l with
  | nil => simp [insertA, lookupA]
  | cons p rest ih =>
    by_cases h : p.1 = k
    · simp [insertA, h, lookupA]
    · simp [insertA, h, lookupA, ih]

theorem lookupA_insertA_ne {α : Type} {j k : String} (h : j ≠ k) (v : α)
    (l : List (String × α)) : lookupA j (insertA k v l) = lookupA j l := by
  induction l with
  | nil => simp [insertA, lookupA, Ne.symm h]
  | cons p rest ih =>
    by_cases hp : p.1 = k
    · simp [insertA, hp, lookupA, Ne.symm h]
    · simp [insertA, hp, lookupA, ih]

theorem keys_insertA_mem {α : Type} (k : String) (v : α) (l : List (String × α))
    (h : k ∈ l.map Prod.fst) : (insertA k v l).map Prod.fst = l.map Prod.fst := by
  induction l with
  | nil => simp at h
  | cons p rest ih =>
    by_cases hp : p.1 = k
    · simp [insertA, hp]
    · rw [List.map_cons] at h
      rcases List.mem_cons.mp h with h1 | h1
      · exact absurd h1.symm hp
      · simp [insertA, hp, ih h1]

theorem keys_insertA_not_mem {α : Type} (k : String) (v : α) (l : List (String × α))
    (h : k ∉ l.map Prod.fst) : (insertA k v l).map Prod.fst = l.map Prod.fst ++ [k] := by
  induction l with
  | nil => simp [insertA]
  | cons p rest ih =>
    have h1 : p.1 ≠ k := fun hh => h (by simp [hh])
    have h2 : k ∉ rest.map Prod.fst := fun hh => h (by simp [hh])
    simp [insertA, h1, ih h2]

theorem removeA_eq_self {α : Type} (k : String) (l : List (String × α))
    (h : k ∉ l.map Prod.fst) : removeA k l = l := by
  induction l with
  | nil => rfl
  | cons p rest ih =>
    have h1 : p.1 ≠ k := fun hh => h (by simp [hh])
    have h2 : k ∉ rest.map Prod.fst := fun hh => h (by simp [hh])
    simp [removeA, h1, ih h2]

theorem mem_removeA {α : Type} {p : String × α} {k : String} {l : List (String × α)}
    (h : p ∈ removeA k l) : p ∈ l ∧ p.1 ≠ k := by
  induction l with
  | nil => cases h
  | cons q rest ih =>
    by_cases hq : q.1 = k
    · rw [removeA, if_pos hq] at h
      rcases ih h with ⟨h1, h2⟩
      exact ⟨List.mem_cons_of_mem _ h1, h2⟩
    · rw [removeA, if_neg hq] at h
      rcases List.mem_cons.mp h with h1 | h1
      · subst h1
        exact ⟨List.mem_cons_self _ _, hq⟩
      · rcases ih h1 with ⟨h2, h3⟩
        exact ⟨List.mem_cons_of_mem _ h2, h3⟩

theorem length_removeA {α : Type} (k : String) (l : List (String × α))
    (hnd : (l.map Prod.fst).Nodup) (h : (lookupA k l).isSome = true) :
    (removeA k l).length + 1 = l.length := by
  induction l with
  | nil => simp [lookupA] at h
  | cons p rest ih =>
    rw [List.map_cons] at hnd
    rcases List.nodup_cons.mp hnd with ⟨hp, hrest⟩
    by_cases hq : p.1 = k
    · have hnot : k ∉ rest.map Prod.fst := by rw [← hq]; exact hp
      simp [removeA, hq, removeA_eq_self k rest hnot]
    · have h2 : (lookupA k rest).isSome = true := by simpa [lookupA, hq] using h
      have h3 := ih hrest h2
      simp only [removeA, if_neg hq, List.length_cons]
      omega

theorem foldl_removeA_nil {α : Type} (ks : List String) (l : List (String × α))
    (h : ∀ p ∈ l, p.1 ∈ ks) : ks.foldl (fun acc k => removeA k acc) l = [] := by
  induction ks generalizing l with
  | nil =>
    cases l with
    | nil => rfl
    | cons p rest => exact absurd (h p (List.mem_cons_self p rest)) (List.not_mem_nil p.1)
  | cons k ks ih =>
    rw [List.foldl_cons]
    apply ih
    intro p hp
    rcases mem_removeA hp with ⟨hmem, hne⟩
    rcases List.mem_cons.mp (h p hmem) with h1 | h1
    · exact absurd h1 hne
    · exact h1

theorem lookupA_foldl_insert_not_mem (rs : List ModelResult) (ms : List (String × ModelResult))
    (k : String) (h : k ∉ rs.map ModelResult.model_name) :
    lookupA k (rs.foldl (fun acc r => insertA r.model_name r acc) ms) = lookupA k ms := by
  induction rs generalizing ms with
  | nil => rfl
  | cons r rest ih =>
    have h1 : k ∉ rest.map ModelResult.model_name := fun hh => h (by simp [hh])
    have h2 : k ≠ r.model_name := fun hh => h (by simp [hh])
    rw [List.foldl_cons, ih _ h1, lookupA_insertA_ne h2]

theorem lookupA_foldl_insert_mem (rs : List ModelResult) (ms : List (String × ModelResult))
    (hnd : (rs.map ModelResult.model_name).Nodup) (r : ModelResult) (hr : r ∈ rs) :
    lookupA r.model_name (rs.foldl (fun acc r => insertA r.model_name r acc) ms) = some r := by
  induction rs generalizing ms with
  | nil => cases hr
  | cons r0 rest ih =>
    rw [List.foldl_cons, List.map_cons] at *
    rcases List.nodup_cons.mp hnd with ⟨hn0, hnrest⟩
    rcases List.mem_cons.mp hr with h1 | h1
    · subst h1
      rw [lookupA_foldl_insert_not_mem rest _ _ hn0, lookupA_insertA_self]
    · exact ih _ hnrest h1

/- ------------------------------------------------------------------ -/
/- Structure of the parallel and series run folds.                    -/
/- ------------------------------------------------------------------ -/

theorem pfold_queued (rs : List ModelResult) (st : ModelState) :
    (rs.foldl pstep st).queued_models =
      rs.foldl (fun q r => removeA r.model_name q) st.queued_models := by
  induction rs generalizing st with
  | nil => rfl
  | cons r rest ih =>
    rw [List.foldl_cons, List.foldl_cons, ih]
    rfl

theorem pfold_models (rs : List ModelResult) (st : ModelState) :
    (rs.foldl pstep st).models =
      rs.foldl (fun acc r => insertA r.model_name r acc) st.models := by
  induction rs generalizing st with
  | nil => rfl
  | cons r rest ih =>
    rw [List.foldl_cons, List.foldl_cons, ih]
    rfl

theorem sfold_snd (l : List (String × QueuedClosure)) (acc : List ModelResult)
    (st : ModelState) :
    (l.foldl sstep (acc, st)).2 = l.foldl series_state_step st := by
  induction l generalizing acc st with
  | nil => rfl
  | cons kq rest ih =>
    rw [List.foldl_cons, List.foldl_cons]
    exact ih _ _

theorem sfold_eq_pfold (l : List (String × QueuedClosure)) (st : ModelState)
    (hinv : ∀ p ∈ l, p.2.model_name = p.1) :
    l.foldl series_state_step st =
      (l.map (fun kq => runClosure kq.2)).foldl pstep st := by
  induction l generalizing st with
  | nil => rfl
  | cons kq rest ih =>
    rw [List.map_cons, List.foldl_cons, List.foldl_cons]
    have hstep : series_state_step st kq = pstep st (runClosure kq.2) := by
      have h := hinv kq (List.mem_cons_self _ _)
      simp only [series_state_step, invoke_queued, pstep, runClosure]
      rw [h]
    rw [hstep]
    exact ih _ (fun p hp => hinv p (List.mem_cons_of_mem _ hp))

theorem drain_core (m : ModelState)
    (hnd : (m.queued_models.map Prod.fst).Nodup)
    (hinv : ∀ p ∈ m.queued_models, p.2.model_name = p.1) :
    ((m.queued_models.map (fun kq => runClosure kq.2)).foldl pstep m).queued_models = [] ∧
    ∀ p ∈ m.queued_models,
      lookupA p.1 ((m.queued_models.map (fun kq => runClosure kq.2)).foldl pstep m).models =
        some (runClosure p.2) := by
  have hkeys : (m.queued_models.map (fun kq => runClosure kq.2)).map ModelResult.model_name
      = m.queued_models.map Prod.fst := by
    rw [List.map_map]
    exact List.map_congr_left (fun kq hkq => by
      simp only [Function.comp, runClosure]
      exact hinv kq hkq)
  constructor
  · rw [pfold_queued]
    have hstep : (m.queued_models.map (fun kq => runClosure kq.2)).foldl
        (fun q r => removeA r.model_name q) m.queued_models
        = (m.queued_models.map Prod.fst).foldl (fun acc k => removeA k acc) m.queued_models := by
      rw [List.foldl_map, List.foldl_map]
      exact List.foldl_ext _ _ _ (fun acc kq hkq => by
        simp only [runClosure]
        rw [hinv kq hkq])
    rw [hstep]
    exact foldl_removeA_nil _ _ (fun p hp => List.mem_map_of_mem Prod.fst hp)
  · intro p hp
    rw [pfold_models]
    have hr : runClosure p.2 ∈ m.queued_models.map (fun kq => runClosure kq.2) :=
      List.mem_map_of_mem _ hp
    have hnd2 : ((m.queued_models.map (fun kq => runClosure kq.2)).map
        ModelResult.model_name).Nodup := by
      rw [hkeys]; exact hnd
    have hl := lookupA_foldl_insert_mem _ m.models hnd2 (runClosure p.2) hr
    have hname : (runClosure p.2).model_name = p.1 := by
      simp only [runClosure]
      exact hinv p hp
    rw [← hname]
    exact hl

/- ------------------------------------------------------------------ -/
/- Claim theorems.                                                    -/
/- ------------------------------------------------------------------ -/

/-- Claim C1: for every model object with a non-empty queued-models mapping,
after run_models completes successfully with method "series" or with method
"parallel", the queued-models mapping is empty and every model that was
queued is registered in the ran-models mapping under its model name. The
queue is a dict, so its keys are unique, and add_to_queue always stores a
closure configured with the same model name as its queue key. -/
theorem run_models_drains_queue (m : ModelState) (method : String)
    (hne : m.queued_models ≠ [])
    (hnd : (m.queued_models.map Prod.fst).Nodup)
    (hinv : ∀ p ∈ m.queued_models, p.2.model_name = p.1)
    (hm : method = "series" ∨ method = "parallel") :
    (run_models m method).2.queued_models = [] ∧
    ∀ p ∈ m.queued_models,
      lookupA p.1 (run_models m method).2.models = some (runClosure p.2) := by
  have hq := hne
  rcases hm with rfl | rfl
  · have h2 : (run_models m "series").2 = m.queued_models.foldl series_state_step m := by
      show (run_models_series m).2 = _
      unfold run_models_series
      exact sfold_snd _ _ _
    rw [h2, sfold_eq_pfold _ _ hinv]
    exact drain_core m hnd hinv
  · have h2 : (run_models m "parallel").2 =
        (m.queued_models.map (fun kq => runClosure kq.2)).foldl pstep m := by
      show (run_models_parallel m).2 = _
      unfold run_models_parallel
      rw [List.map_map]
      rfl
    rw [h2]
    exact drain_core m hnd hinv

/-- Witness for C1 at a concrete two-model queue, run both in series and in
parallel. -/
theorem run_models_drains_queue_witness :
    (run_models stQ "series").2.queued_models = [] ∧
    lookupA "km" (run_models stQ "series").2.models =
      some (runClosure { model_name := "km", payload := 1 }) ∧
    (run_models stQ "parallel").2.queued_models = [] ∧
    lookupA "dbs" (run_models stQ "parallel").2.models =
      some (runClosure { model_name := "dbs", payload := 2 }) := by
  have hs := run_models_drains_queue stQ "series" (by decide) (by decide) (by decide)
    (Or.inl rfl)
  have hp := run_models_drains_queue stQ "parallel" (by decide) (by decide) (by decide)
    (Or.inr rfl)
  exact ⟨hs.1, hs.2 ("km", { model_name := "km", payload := 1 }) (by decide),
         hp.1, hp.2 ("dbs", { model_name := "dbs", payload := 2 }) (by decide)⟩

/-- Claim C2, counterexample: calling a model-training method with an invalid
model name does not raise a ValueError, as the claim states - the add_to_queue
wrapper raises an AttributeError ("Invalid model name. Please choose another
one.") instead. -/
theorem invalid_model_name_not_value_error :
    (add_to_queue always_invalid st0 "KMeans" "bad" true 0).1 =
      Except.error (PyError.attributeError "Invalid model name. Please choose another one.") ∧
    isValueError (add_to_queue always_invalid st0 "KMeans" "bad" true 0).1 = false := by
  exact ⟨rfl, rfl⟩

/-- Claim C2 as amended: for every call that trains or queues a model with an
invalid model name, an AttributeError (not a ValueError) is raised and the
model is neither trained nor added to the queued-models mapping - the state,
in particular both model mappings, is returned unchanged. -/
theorem invalid_model_name_attribute_error (validate : ModelState → String → Bool)
    (m : ModelState) (fname model_name : String) (run : Bool) (payload : Int)
    (h : validate m model_name = false) :
    add_to_queue validate m fname model_name run payload =
      (Except.error (PyError.attributeError "Invalid model name. Please choose another one."), m) := by
  simp [add_to_queue, h]

/-- Witness for the amended C2 at a concrete invalid name. -/
theorem invalid_model_name_attribute_error_witness :
    add_to_queue always_invalid st0 "KMeans" "bad" true 0 =
      (Except.error (PyError.attributeError "Invalid model name. Please choose another one."), st0) :=
  invalid_model_name_attribute_error always_invalid st0 "KMeans" "bad" true 0 rfl

/-- Claim C3: calling run_models with any method string other than "parallel"
or "series" raises a ValueError, and no queued model is trained: the state,
in particular the queued-models and ran-models mappings, is returned
unchanged. -/
theorem run_models_invalid_method (m : ModelState) (method : String)
    (h1 : method ≠ "parallel") (h2 : method ≠ "series") :
    run_models m method =
      (Except.error (PyError.valueError
        "Invalid run method, accepted run methods are either \"parallel\" or \"series\"."), m) := by
  simp [run_models, h1, h2]

/-- Witness for C3 at a concrete invalid method string. -/
theorem run_models_invalid_method_witness :
    run_models stQ "foo" =
      (Except.error (PyError.valueError
        "Invalid run method, accepted run methods are either \"parallel\" or \"series\"."), stQ) :=
  run_models_invalid_method stQ "foo" (by decide) (by decide)

/-- Claim C4, evaluated at the failing input: copy() on an Unsupervised object
raises a TypeError instead of returning a deep copy, because
ModelBase.__deepcopy__ calls type(self) with the keyword arguments target,
x_test and test_split_percentage that Unsupervised.__init__ does not accept. -/
theorem unsupervised_copy_type_error :
    ModelState.copy (Unsupervised.init ⟨[("a", [1, 2, 3])]⟩ "my-experiment") =
      Except.error (PyError.typeError "__init__ got an unexpected keyword argument target") := by
  rfl

/-- Claim C5: when the target is non-empty and occurs among the columns of
x_train, the features property returns the column names in order with the
first occurrence of the target removed; when the target is empty it returns
all column names. (Reading features cannot change x_train: the source copies
the column list with tolist() before removing the target from the copy, and
the embedded features is a pure function of the state.) -/
theorem features_spec (m : ModelState) :
    (m.target = "" → features m = Except.ok m.x_train.columns) ∧
    (m.target ≠ "" → m.target ∈ m.x_train.columns →
      ∃ l1 l2, m.target ∉ l1 ∧ m.x_train.columns = l1 ++ m.target :: l2 ∧
        features m = Except.ok (l1 ++ l2)) := by
  constructor
  · intro h
    simp [features, h]
  · intro h1 h2
    obtain ⟨l1, l2, hn, he, hr⟩ := List.exists_erase_eq h2
    exact ⟨l1, l2, hn, he, by simp [features, h1, h2, hr]⟩

/-- Witness for C5: an empty target returns every column, and a target "t"
with columns a, t, b yields the feature list a, b. -/
theorem features_spec_witness :
    features stL = Except.ok ["f1"] ∧ features stT = Except.ok ["a", "b"] := by
  have h1 := (features_spec stL).1 rfl
  have h2 := (features_spec stT).2 (by decide) (by decide)
  exact ⟨h1, by rfl⟩

/-- Claim C6: run_models with method "parallel" returns one trained result per
queued model, and the returned list is in pool-map result order, i.e. the
same order as the closures in the queued-models mapping. -/
theorem run_models_parallel_order (m : ModelState) :
    ∃ rs, (run_models m "parallel").1 = Except.ok rs ∧
      rs.length = m.queued_models.length ∧
      List.Forall₂ (fun (p : String × QueuedClosure) (r : ModelResult) =>
        r = runClosure p.2) m.queued_models rs := by
  refine ⟨(run_models_parallel m).1, rfl, ?_, ?_⟩
  · simp [run_models_parallel]
  · have hres : (run_models_parallel m).1 =
        m.queued_models.map (fun kq => runClosure kq.2) := by
      show (m.queued_models.map Prod.snd).map run_one = _
      rw [List.map_map]
      rfl
    rw [hres]
    induction m.queued_models with
    | nil => exact List.Forall₂.nil
    | cons kq rest ih => exact List.Forall₂.cons rfl ih

/-- Claim C7: delete_model removes the named model from the queued-models
mapping if present there, otherwise from the ran-models mapping if present
there, and otherwise raises a ValueError; exactly one entry is removed when
no error is raised (the mappings are dicts, so their keys are unique) and the
other mapping is untouched, while on error the whole state is unchanged. -/
theorem delete_model_spec (m : ModelState) (name : String)
    (hqnd : (m.queued_models.map Prod.fst).Nodup)
    (hmnd : (m.models.map Prod.fst).Nodup) :
    ((lookupA name m.queued_models).isSome = true →
      delete_model m name =
        (Except.ok (), { m with queued_models := removeA name m.queued_models }) ∧
      (removeA name m.queued_models).length + 1 = m.queued_models.length) ∧
    (lookupA name m.queued_models = none → (lookupA name m.models).isSome = true →
      delete_model m name = (Except.ok (), { m with models := removeA name m.models }) ∧
      (removeA name m.models).length + 1 = m.models.length) ∧
    (lookupA name m.queued_models = none → lookupA name m.models = none →
      delete_model m name =
        (Except.error (PyError.valueError s!"Model {name} does not exist"), m)) := by
  refine ⟨fun h => ?_, fun h1 h2 => ?_, fun h1 h2 => ?_⟩
  · exact ⟨by simp [delete_model, h], length_removeA _ _ hqnd h⟩
  · exact ⟨by simp [delete_model, h1, h2], length_removeA _ _ hmnd h2⟩
  · simp [delete_model, h1, h2]

/-- Witness for C7: deleting a queued model, deleting a ran model, and
deleting an unknown name on a concrete state. -/
theorem delete_model_spec_witness :
    delete_model stD "qa" = (Except.ok (), { stD with queued_models := [] }) ∧
    (removeA "qa" stD.queued_models).length + 1 = stD.queued_models.length ∧
    delete_model stD "rb" = (Except.ok (), { stD with models := [] }) ∧
    delete_model stD "nope" =
      (Except.error (PyError.valueError "Model nope does not exist"), stD) := by
  have h1 := (delete_model_spec stD "qa" (by decide) (by decide)).1 (by decide)
  have h2 := (delete_model_spec stD "rb" (by decide) (by decide)).2.1 (by decide) (by decide)
  have h3 := (delete_model_spec stD "nope" (by decide) (by decide)).2.2 (by decide) (by decide)
  exact ⟨h1.1, h1.2, h2.1, h3⟩

/-- Claim C8: a model-training method whose function name contains "XGBoost",
called with run=False and a valid name, adds nothing to the queued-models
mapping and returns None; every other model-training method called with
run=False and a valid model name stores a deferred closure in the
queued-models mapping under the given model name, returns None, and does not
train the model then (the ran-models mapping and the data are untouched). -/
theorem add_to_queue_run_false (validate : ModelState → String → Bool) (m : ModelState)
    (fname model_name : String) (payload : Int)
    (hv : validate m model_name = true) :
    (strContains fname "XGBoost" = true →
      add_to_queue validate m fname model_name false payload = (Except.ok none, m)) ∧
    (strContains fname "XGBoost" = false →
      (add_to_queue validate m fname model_name false payload).1 = Except.ok none ∧
      lookupA model_name
          (add_to_queue validate m fname model_name false payload).2.queued_models =
        some { model_name := model_name, payload := payload } ∧
      (add_to_queue validate m fname model_name false payload).2.models = m.models ∧
      (add_to_queue validate m fname model_name false payload).2.x_train = m.x_train) := by
  constructor
  · intro h
    simp [add_to_queue, hv, h]
  · intro h
    refine ⟨by simp [add_to_queue, hv, h], ?_, by simp [add_to_queue, hv, h],
      by simp [add_to_queue, hv, h]⟩
    simp [add_to_queue, hv, h, lookupA_insertA_self]

/-- Witness for C8: queuing with an XGBoost method is a no-op, and queuing a
KMeans closure stores it without touching the ran-models mapping. -/
theorem add_to_queue_run_false_witness :
    add_to_queue always_valid st0 "XGBoostClassifier" "xgb" false 3 = (Except.ok none, st0) ∧
    lookupA "km" (add_to_queue always_valid st0 "KMeans" "km" false 7).2.queued_models =
      some { model_name := "km", payload := 7 } ∧
    (add_to_queue always_valid st0 "KMeans" "km" false 7).2.models = st0.models := by
  have h1 := (add_to_queue_run_false always_valid st0 "XGBoostClassifier" "xgb" 3 rfl).1
    (by decide)
  have h2 := (add_to_queue_run_false always_valid st0 "KMeans" "km" 7 rfl).2 (by decide)
  exact ⟨h1, h2.2.1, h2.2.2.1⟩

/-- Claim C9: assigning y_train (or y_test when a test set exists) while the
target is empty sets the target to "label" and stores the values in a new
last column named "label" of the corresponding dataframe, after which reading
y_train (respectively y_test) returns those values; when the target is
already non-empty the assignment writes into the existing target column and
the target and the column list are unchanged. -/
theorem y_setter_spec (m : ModelState) (v : List Int) :
    (m.target = "" → "label" ∉ m.x_train.columns →
      (set_y_train m v).target = "label" ∧
      (set_y_train m v).x_train.columns = m.x_train.columns ++ ["label"] ∧
      y_train (set_y_train m v) = some v) ∧
    (m.target ≠ "" → m.target ∈ m.x_train.columns →
      (set_y_train m v).target = m.target ∧
      (set_y_train m v).x_train.columns = m.x_train.columns ∧
      y_train (set_y_train m v) = some v) ∧
    (∀ df, m.x_test = some df → m.target = "" → "label" ∉ df.columns →
      (set_y_test m v).target = "label" ∧
      (set_y_test m v).x_test = some (df.setCol "label" v) ∧
      (df.setCol "label" v).columns = df.columns ++ ["label"] ∧
      y_test (set_y_test m v) = some v) ∧
    (∀ df, m.x_test = some df → m.target ≠ "" → m.target ∈ df.columns →
      (set_y_test m v).target = m.target ∧
      (set_y_test m v).x_test = some (df.setCol m.target v) ∧
      (df.setCol m.target v).columns = df.columns ∧
      y_test (set_y_test m v) = some v) := by
  refine ⟨fun h1 h2 => ?_, fun h1 h2 => ?_, fun df hdf h1 h2 => ?_, fun df hdf h1 h2 => ?_⟩
  · refine ⟨by simp [set_y_train, h1], ?_, ?_⟩
    · simp only [set_y_train, if_pos h1, DataFrame.setCol, DataFrame.columns]
      exact keys_insertA_not_mem _ _ _ h2
    · simp [y_train, set_y_train, h1, DataFrame.getCol, DataFrame.setCol,
        lookupA_insertA_self]
  · refine ⟨by simp [set_y_train, h1], ?_, ?_⟩
    · simp only [set_y_train, if_neg h1, DataFrame.setCol, DataFrame.columns]
      exact keys_insertA_mem _ _ _ h2
    · simp [y_train, set_y_train, h1, DataFrame.getCol, DataFrame.setCol,
        lookupA_insertA_self]
  · refine ⟨by simp [set_y_test, hdf, h1], by simp [set_y_test, hdf, h1], ?_, ?_⟩
    · simp only [DataFrame.setCol, DataFrame.columns]
      exact keys_insertA_not_mem _ _ _ h2
    · simp [y_test, set_y_test, hdf, h1, DataFrame.getCol, DataFrame.setCol,
        lookupA_insertA_self]
  · refine ⟨by simp [set_y_test, hdf, h1], by simp [set_y_test, hdf, h1], ?_, ?_⟩
    · simp only [DataFrame.setCol, DataFrame.columns]
      exact keys_insertA_mem _ _ _ h2
    · simp [y_test, set_y_test, hdf, h1, DataFrame.getCol, DataFrame.setCol,
        lookupA_insertA_self]

/-- Witness for C9: assigning y_train on an empty-target state creates and
fills a "label" column; assigning on a state with target "t" rewrites that
column in place; assigning y_test with target "t" is read back by y_test. -/
theorem y_setter_spec_witness :
    (set_y_train stL [7, 8]).target = "label" ∧
    (set_y_train stL [7, 8]).x_train.columns = ["f1", "label"] ∧
    y_train (set_y_train stL [7, 8]) = some [7, 8] ∧
    (set_y_train stT [9, 9]).target = "t" ∧
    (set_y_train stT [9, 9]).x_train.columns = ["a", "t", "b"] ∧
    y_train (set_y_train stT [9, 9]) = some [9, 9] ∧
    y_test (set_y_test stT [5]) = some [5] := by
  have h1 := (y_setter_spec stL [7, 8]).1 rfl (by decide)
  have h2 := (y_setter_spec stT [9, 9]).2.1 (by decide) (by decide)
  have h3 := (y_setter_spec stT [5]).2.2.2 ⟨[("a", [5]), ("t", [1]), ("b", [6])]⟩
    rfl (by decide) (by decide)
  exact ⟨h1.1, h1.2.1, h1.2.2, h2.1, h2.2.1, h2.2.2, h3.2.2.2⟩

/-- Claim C10: constructing an Unsupervised object performs no train/test
split: after __init__ the test set is None and the target is empty, and
consequently the test_data and y_test properties return None. -/
theorem unsupervised_init_no_split (x_train : DataFrame) (exp_name : String) :
    (Unsupervised.init x_train exp_name).x_test = none ∧
    (Unsupervised.init x_train exp_name).target = "" ∧
    test_data (Unsupervised.init x_train exp_name) = Except.ok none ∧
    y_test (Unsupervised.init x_train exp_name) = none := by
  have h : Unsupervised.init x_train exp_name =
      { cls := ClassTag.unsupervised, x_train := x_train, x_test := none, target := "",
        target_mapping := none, test_split_percentage := 1 / 5,
        exp_name := exp_name, models := [], queued_models := [] } := by
    simp [Unsupervised.init, ModelBase.init]
  rw [h]
  exact ⟨rfl, rfl, rfl, rfl⟩
